import Mathlib

/-!
Shallow embedding of QServerCtrl (src/qserverctrl/server.py and
src/qserverctrl/__main__.py).

The cloud control plane is modelled as explicit state: each remote
`DescribeInstances` observation of `LatestOperationState` is drawn from a
stream `obs : Nat → OpState`, and the outcome a `poll_latest_operation`
call would return after a `StartInstances` / `StopInstances` request is
carried in the provider state (`startPollResult` / `stopPollResult`),
together with the instance's running flag and public IP.  Python
exceptions are modelled with `Except`; Python threads
(`StoppableThread`) are records carrying their stop event and an alive
flag, scheduled cooperatively (a thread's loop iteration is an explicit
function, invoked by the environment).
-/

namespace QServerCtrl

/-- Value of `InstanceSet[0].LatestOperationState` in a `DescribeInstances` response:
"SUCCESSFUL", "FAILED", or anything else (operation still in progress). -/
inductive OpState where
  | successful
  | failed
  | pending
deriving Repr, DecidableEq

/-- Model of `TencentCloudServiceProvider.poll_latest_operation`, with the successive
`describe_instance` observations supplied by the stream `obs` starting at
index `i`; `fuel` is the remaining retry budget (`max_retry` at the top
call).  Returns whether the operation is successful. -/
def pollAux (obs : Nat → OpState) : Nat → Nat → Bool
  | 0, _ => false
  | fuel + 1, i =>
    match obs i with
    | .successful => true
    | .failed => false
    | .pending => pollAux obs fuel (i + 1)

/-- Number of `describe_instance` calls issued by `pollAux`. -/
def pollDescribeCount (obs : Nat → OpState) : Nat → Nat → Nat
  | 0, _ => 0
  | fuel + 1, i =>
    match obs i with
    | .successful => 1
    | .failed => 1
    | .pending => 1 + pollDescribeCount obs fuel (i + 1)

/-- Model of `poll_latest_operation` with its default budget `max_retry = 50`,
observing from the start of the stream. -/
def poll_latest_operation (obs : Nat → OpState) : Bool :=
  pollAux obs 50 0

/-- State of one `TencentCloudServiceProvider` together with the cloud
environment behind it.  `running` is what `describe_instance` currently
reports (`InstanceState == "RUNNING"`), `ip` is
`PublicIpAddresses[0]`, and `startPollResult` / `stopPollResult` are the
values `poll_latest_operation` returns for the operation issued by
`start` / `stop` respectively. -/
structure ProviderState where
  running : Bool
  ip : String
  startPollResult : Bool
  stopPollResult : Bool
deriving Repr, DecidableEq

namespace TencentCloudServiceProvider

/-- Model of `TencentCloudServiceProvider.is_running`. -/
def is_running (s : ProviderState) : Bool := s.running

/-- Model of `TencentCloudServiceProvider.get_ip`: `None` when the instance is not
running, otherwise the reported public address. -/
def get_ip (s : ProviderState) : Option String :=
  if !s.running then none else some s.ip

/-- Model of `TencentCloudServiceProvider.start`: raises `RuntimeError` when already
running, otherwise issues `StartInstances` and returns
`poll_latest_operation()`.  The cloud environment makes the instance
report running exactly when the start operation succeeds. -/
def start (s : ProviderState) : Except String (Bool × ProviderState) :=
  if is_running s then .error "Server is already running."
  else .ok (s.startPollResult, { s with running := s.startPollResult })

/-- Model of `TencentCloudServiceProvider.stop`: raises `RuntimeError` when already
stopped, otherwise issues `StopInstances` and returns
`poll_latest_operation()`.  The cloud environment keeps the instance
running when the stop operation fails. -/
def stop (s : ProviderState) : Except String (Bool × ProviderState) :=
  if !is_running s then .error "Server is already stopped."
  else .ok (s.stopPollResult, { s with running := !s.stopPollResult })

end TencentCloudServiceProvider

/-- A `StoppableThread` running `pool_status`: `stopEvent` is its
`_stop_event` flag, `alive` whether the thread has not yet terminated. -/
structure WatchdogThread where
  id : Nat
  stopEvent : Bool
  alive : Bool
deriving Repr, DecidableEq

/-- Set the `_stop_event` of the thread with identifier `i`
(`StoppableThread.stop`). -/
def setStopEvent (ts : List WatchdogThread) (i : Nat) : List WatchdogThread :=
  ts.map fun t => if t.id = i then { t with stopEvent := true } else t

/-- Mark the thread with identifier `i` as terminated. -/
def markDead (ts : List WatchdogThread) (i : Nat) : List WatchdogThread :=
  ts.map fun t => if t.id = i then { t with alive := false } else t

/-- Look a thread up by identifier. -/
def findThread (ts : List WatchdogThread) (i : Nat) : Option WatchdogThread :=
  ts.find? fun t => t.id = i

/-- Number of still-alive watchdog threads. -/
def countAlive (ts : List WatchdogThread) : Nat :=
  (ts.filter fun t => t.alive).length

/-- State of one `CloudServiceController`: its configuration fields, the
provider, every watchdog thread ever spawned for it, the identifier held
by `poll_status_thread` (`none` models Python `None`), and a counter
supplying fresh thread identifiers. -/
structure Ctrl where
  name : String
  description : String
  port : Nat
  timeout : Nat
  provider : ProviderState
  threads : List WatchdogThread
  pollThreadId : Option Nat
  nextId : Nat
deriving Repr, DecidableEq

/-- Python `str` applied to `get_ip()`'s result inside the f-string of
`get_play_address`: `str(None)` renders as `"None"`. -/
def pyStr : Option String → String
  | none => "None"
  | some s => s

namespace CloudServiceController

/-- Model of `CloudServiceController.is_running`. -/
def is_running (c : Ctrl) : Bool :=
  TencentCloudServiceProvider.is_running c.provider

/-- Model of `CloudServiceController.get_play_address`: the f-string
`"{get_ip()}:{port}"`, built unconditionally. -/
def get_play_address (c : Ctrl) : String :=
  pyStr (TencentCloudServiceProvider.get_ip c.provider) ++ ":" ++ toString c.port

/-- Model of `CloudServiceController.__init__`: if the provider already reports
running, a watchdog is spawned immediately. -/
def init (name description : String) (port timeout : Nat)
    (p : ProviderState) : Ctrl :=
  if TencentCloudServiceProvider.is_running p then
    { name := name, description := description, port := port,
      timeout := timeout, provider := p,
      threads := [⟨0, false, true⟩], pollThreadId := some 0, nextId := 1 }
  else
    { name := name, description := description, port := port,
      timeout := timeout, provider := p,
      threads := [], pollThreadId := none, nextId := 0 }

/-- Model of `CloudServiceController.start`.  Returns the play address (or `None`
on failure), the updated state, and the number of remote provider start
calls issued.  The old `poll_status_thread`, when present, gets its stop
event set — it is not joined — before the new watchdog is spawned. -/
def start (c : Ctrl) : Except String (Option String × Ctrl × Nat) :=
  if is_running c then .ok (some (get_play_address c), c, 0)
  else
    match TencentCloudServiceProvider.start c.provider with
    | .error e => .error e
    | .ok (ok, p) =>
      if !ok then .ok (none, { c with provider := p }, 1)
      else
        let ts :=
          match c.pollThreadId with
          | none => c.threads
          | some i => setStopEvent c.threads i
        let c₁ : Ctrl :=
          { c with provider := p,
                   threads := ts ++ [⟨c.nextId, false, true⟩],
                   pollThreadId := some c.nextId,
                   nextId := c.nextId + 1 }
        .ok (some (get_play_address c₁), c₁, 1)

/-- Model of `CloudServiceController.stop`.  Returns the provider's answer, the
updated state, and the number of remote provider stop calls issued.  The
stop event of the current `poll_status_thread` is set before the remote
stop is issued. -/
def stop (c : Ctrl) : Except String (Bool × Ctrl × Nat) :=
  if !is_running c then .ok (true, c, 0)
  else
    let ts :=
      match c.pollThreadId with
      | none => c.threads
      | some i => setStopEvent c.threads i
    match TencentCloudServiceProvider.stop c.provider with
    | .error e => .error e
    | .ok (ok, p) => .ok (ok, { c with threads := ts, provider := p }, 1)

/-- Model of `self.stop()` as called from inside the watchdog loop, keeping only
the state.  The error branch is unreachable because `stop` pre-checks
`is_running` (theorem `c3_already_in_state_unreachable` below). -/
def stopState (c : Ctrl) : Ctrl :=
  match stop c with
  | .ok (_, c', _) => c'
  | .error _ => c

end CloudServiceController

/-!
The watchdog loop `CloudServiceController.pool_status`.  Every
`server.status().players.online` evaluation is a fresh occupancy probe;
the probes (including the preceding `JavaServer.lookup`) are drawn from
a stream `probes : Nat → Except String Nat`, where `.error e` models the
probe raising an exception with text `e` and `.ok n` a reading of `n`
online players.  One loop iteration is the function `pool_status_iter`;
the environment (the thread scheduler) decides how often it runs.
-/

/-- The flag check `self.poll_status_thread.stopped()` inside
`pool_status`: the loop reads the stop event of whichever thread the
controller attribute `poll_status_thread` CURRENTLY references — not
necessarily the thread executing the loop. -/
def currentStopped (c : Ctrl) : Bool :=
  match c.pollThreadId with
  | none => false
  | some i =>
    match findThread c.threads i with
    | none => false
    | some t => t.stopEvent

/-- The `except` handler of `pool_status`: sleep `timeout`, retry one
lookup-and-probe; if that raises again, notify and call `self.stop()`.
Returns the state, the next probe index, the messages sent, and the
number of `self.stop()` calls. -/
def handleExcept (c : Ctrl) (probes : Nat → Except String Nat) (j : Nat) :
    Ctrl × Nat × List String × Nat :=
  match probes j with
  | .ok _ => (c, j + 1, [], 0)
  | .error e =>
    (CloudServiceController.stopState c, j + 1,
     [c.name ++ " Error polling server: " ++ e ++ ". Stopping."], 1)

/-- The `try` block of one `pool_status` iteration, starting at probe
index `i`. -/
def iterTry (c : Ctrl) (probes : Nat → Except String Nat) (i : Nat) :
    Ctrl × Nat × List String × Nat :=
  match probes i with
  | .error _ => handleExcept c probes (i + 1)
  | .ok _ =>
    match probes (i + 1) with
    | .error _ => handleExcept c probes (i + 2)
    | .ok n =>
      if n = 0 then
        let warn := c.name ++ " has no players and will be stopped in " ++
          toString c.timeout ++ " seconds."
        match probes (i + 2) with
        | .error _ =>
          let r := handleExcept c probes (i + 3)
          (r.1, r.2.1, warn :: r.2.2.1, r.2.2.2)
        | .ok m =>
          if m = 0 then
            (CloudServiceController.stopState c, i + 3,
             [warn, c.name ++ " No one is online. Stopping."], 1)
          else
            match probes (i + 3) with
            | .error _ =>
              let r := handleExcept c probes (i + 4)
              (r.1, r.2.1, warn :: r.2.2.1, r.2.2.2)
            | .ok k =>
              (c, i + 4,
               [warn, c.name ++ " has " ++ toString k ++ " players. Stop cancelled."], 0)
      else (c, i + 2, [], 0)

/-- Result of one watchdog loop iteration. -/
structure IterOut where
  ctrl : Ctrl
  next : Nat
  msgs : List String
  stopCalls : Nat
  terminated : Bool
deriving Repr, DecidableEq

/-- One full iteration of `pool_status` executed by the watchdog thread
with identifier `wid`: the `try`/`except` body, then the
`poll_status_thread.stopped()` check that decides whether the loop
breaks (the thread terminates) or sleeps 5 seconds and continues. -/
def pool_status_iter (c : Ctrl) (wid : Nat)
    (probes : Nat → Except String Nat) (i : Nat) : IterOut :=
  let r := iterTry c probes i
  if currentStopped r.1 then
    { ctrl := { r.1 with threads := markDead r.1.threads wid },
      next := r.2.1, msgs := r.2.2.1, stopCalls := r.2.2.2, terminated := true }
  else
    { ctrl := r.1, next := r.2.1, msgs := r.2.2.1, stopCalls := r.2.2.2,
      terminated := false }

/-!
Models of `MainController` (the fleet registry) and
`QQBot.handle_command` (the dispatcher).  `BOT.send_message` calls are collected into a list of sent
messages; an uncaught Python exception inside the handler thread is the
`Option String` component of `handle_command`'s result (messages already
sent before it are kept, since sending happened first).
-/

/-- The help text sent by `MainController.get_help`. -/
def help_message : String :=
  "Available commands:\n/ctrl list\n/ctrl start <name>\n/ctrl stop <name>"

namespace MainController

/-- Model of `MainController.start(servername)`: the returned value (Python
returns a string in the already-running branch, `None` elsewhere), the
messages sent via `BOT.send_message`, and the updated controllers. -/
def start : List Ctrl → String → Except String (Option String × List String × List Ctrl)
  | [], _ => .ok (none, ["No such server."], [])
  | c :: rest, n =>
    if c.name = n then
      if CloudServiceController.is_running c then
        .ok (some ("Server " ++ n ++ " is already running at " ++
              CloudServiceController.get_play_address c ++ "."), [], c :: rest)
      else
        match CloudServiceController.start c with
        | .error e => .error e
        | .ok (addr, c', _) =>
          match addr with
          | none => .ok (none, ["Failed to start " ++ n ++ "."], c' :: rest)
          | some a => .ok (none, ["The server is started at " ++ a], c' :: rest)
    else
      match start rest n with
      | .error e => .error e
      | .ok (r, ms, rest') => .ok (r, ms, c :: rest')

/-- Model of `MainController.stop(servername)`: the messages sent and the updated
controllers. -/
def stop : List Ctrl → String → Except String (List String × List Ctrl)
  | [], _ => .ok (["No such server."], [])
  | c :: rest, n =>
    if c.name = n then
      if !CloudServiceController.is_running c then
        .ok (["Server " ++ n ++ " is not running."], c :: rest)
      else
        match CloudServiceController.stop c with
        | .error e => .error e
        | .ok (ok, c', _) =>
          if ok then .ok (["Server " ++ n ++ " stopped."], c' :: rest)
          else .ok (["Failed to stop " ++ n ++ "."], c' :: rest)
    else
      match stop rest n with
      | .error e => .error e
      | .ok (ms, rest') => .ok (ms, c :: rest')

/-- One per-server line of `MainController.list_server`'s message. -/
def listLine (c : Ctrl) : String :=
  "-> " ++ c.name ++ " " ++
  (if CloudServiceController.is_running c then
     "running at " ++ CloudServiceController.get_play_address c
   else "stopped") ++
  "\n" ++ c.description ++ "\n\n"

/-- Model of `MainController.list_server`: sends one message listing every
server. -/
def list_server (cs : List Ctrl) : List String :=
  ["Available servers:\n" ++ String.join (cs.map listLine)]

end MainController

namespace QQBot

/-- Python `str.split(" ")` on a character list: split at every single
space, keeping empty fields. -/
def splitSpacesAux : List Char → List Char → List String
  | [], acc => [String.mk acc.reverse]
  | ch :: rest, acc =>
    if ch = ' ' then String.mk acc.reverse :: splitSpacesAux rest []
    else splitSpacesAux rest (ch :: acc)

/-- Python `msg.split(" ")`.  (Lean's `String.splitOn " "` agrees but is
defined by well-founded recursion, so the structural version is used.) -/
def splitSpaces (s : String) : List String :=
  splitSpacesAux s.toList []

/-- Model of `QQBot.handle_command`: splits the message on single spaces, sends
help when the token count differs from 3 (without returning), then
dispatches on `command[1]`.  Result: the messages sent, the updated
controllers, and — when indexing or a provider call raises — the
uncaught exception that kills the handler thread. -/
def handle_command (cs : List Ctrl) (msg : String) :
    List String × List Ctrl × Option String :=
  let command := splitSpaces msg
  let pre : List String := if command.length = 3 then [] else [help_message]
  match command.get? 1 with
  | none => (pre, cs, some "IndexError")
  | some v =>
    if v = "list" then (pre ++ MainController.list_server cs, cs, none)
    else if v = "start" then
      match command.get? 2 with
      | none => (pre, cs, some "IndexError")
      | some n =>
        match MainController.start cs n with
        | .error e => (pre, cs, some e)
        | .ok (_, ms, cs') => (pre ++ ms, cs', none)
    else if v = "stop" then
      match command.get? 2 with
      | none => (pre, cs, some "IndexError")
      | some n =>
        match MainController.stop cs n with
        | .error e => (pre, cs, some e)
        | .ok (ms, cs') => (pre ++ ms, cs', none)
    else if v = "help" then (pre ++ [help_message], cs, none)
    else (pre, cs, none)

end QQBot

/-!
Concrete fixtures (mirroring config.example.py) used by witnesses and
counterexamples, and helper lemmas.
-/

/-- A provider whose instance is stopped and whose remote operations
succeed. -/
def pStopped : ProviderState := ⟨false, "1.2.3.4", true, true⟩

/-- A provider whose instance is running and whose remote operations
succeed. -/
def pRunning : ProviderState := ⟨true, "1.2.3.4", true, true⟩

/-- A controller constructed over a stopped instance. -/
def cStopped : Ctrl :=
  CloudServiceController.init "server1" "A server" 25565 180 pStopped

/-- A controller constructed over a running instance (so `__init__`
spawned watchdog thread 0). -/
def cRunning : Ctrl :=
  CloudServiceController.init "server1" "A server" 25565 180 pRunning

/-- Calling `start` on a controller whose instance reports running returns the
current play address at once, leaves the state unchanged, and issues no
remote start call. -/
theorem start_of_running (c : Ctrl) (h : c.provider.running = true) :
    CloudServiceController.start c =
      Except.ok (some (CloudServiceController.get_play_address c), c, 0) := by
  simp [CloudServiceController.start, CloudServiceController.is_running,
    TencentCloudServiceProvider.is_running, h]

/-- Runs `n` consecutive `start()` calls, each proceeding from the state the
previous one left (the unreachable error branch keeps the state). -/
def startN : Nat → Ctrl → Ctrl
  | 0, c => c
  | n + 1, c =>
    match CloudServiceController.start c with
    | .ok (_, c', _) => startN n c'
    | .error _ => c

/-- Lemma: `startN` is the identity on a controller whose instance reports
running. -/
theorem startN_of_running (n : Nat) (c : Ctrl) (h : c.provider.running = true) :
    startN n c = c := by
  induction n with
  | zero => rfl
  | succ n ih =>
    rw [startN, start_of_running c h]
    exact ih

/-- Looking up the thread whose stop event was just set. -/
theorem findThread_setStopEvent (ts : List WatchdogThread) (w : Nat) :
    findThread (setStopEvent ts w) w =
      (findThread ts w).map fun t => { t with stopEvent := true } := by
  induction ts with
  | nil => rfl
  | cons a ts ih =>
    simp only [findThread, setStopEvent, List.map, List.find?] at *
    by_cases h : a.id = w
    · simp [h]
    · simp [h, ih]

/-!
C9 — the poll-to-completion budget and result.
-/

/-- Lemma: `pollAux` returns `true` exactly when some observation within the
remaining budget is `SUCCESSFUL` and no earlier observation is
`FAILED`. -/
theorem pollAux_iff (obs : Nat → OpState) (n : Nat) :
    ∀ i, pollAux obs n i = true ↔
      ∃ j, j < n ∧ obs (i + j) = OpState.successful ∧
        ∀ k, k < j → obs (i + k) ≠ OpState.failed := by
  induction n with
  | zero =>
    intro i
    simp [pollAux]
  | succ n ih =>
    intro i
    cases h : obs i with
    | successful =>
      simp only [pollAux, h]
      constructor
      · intro _
        exact ⟨0, Nat.succ_pos n, by simpa using h,
          fun k hk => absurd hk (Nat.not_lt_zero k)⟩
      · intro _; trivial
    | failed =>
      simp only [pollAux, h]
      constructor
      · intro hf; exact absurd hf (by simp)
      · rintro ⟨j, _, hs, hnf⟩
        cases j with
        | zero =>
          rw [Nat.add_zero, h] at hs
          cases hs
        | succ j =>
          exact absurd h (by simpa using hnf 0 (Nat.succ_pos j))
    | pending =>
      simp only [pollAux, h]
      rw [ih (i + 1)]
      constructor
      · rintro ⟨j, hj, hs, hnf⟩
        refine ⟨j + 1, by omega, ?_, ?_⟩
        · rw [show i + (j + 1) = i + 1 + j by omega]
          exact hs
        · intro k hk
          cases k with
          | zero => simp [h]
          | succ k =>
            rw [show i + (k + 1) = i + 1 + k by omega]
            exact hnf k (by omega)
      · rintro ⟨j, hj, hs, hnf⟩
        cases j with
        | zero =>
          rw [Nat.add_zero, h] at hs
          cases hs
        | succ j =>
          refine ⟨j, by omega, ?_, ?_⟩
          · rw [show i + 1 + j = i + (j + 1) by omega]
            exact hs
          · intro k hk
            rw [show i + 1 + k = i + (k + 1) by omega]
            exact hnf (k + 1) (by omega)

/-- Lemma: `pollAux` issues at most as many describe calls as its budget. -/
theorem pollDescribeCount_le (obs : Nat → OpState) (n : Nat) :
    ∀ i, pollDescribeCount obs n i ≤ n := by
  induction n with
  | zero => intro i; simp [pollDescribeCount]
  | succ n ih =>
    intro i
    cases h : obs i with
    | successful => simp [pollDescribeCount, h]
    | failed => simp [pollDescribeCount, h]
    | pending =>
      simp only [pollDescribeCount, h]
      have := ih (i + 1)
      omega

/-- C9: `poll_latest_operation` performs at most 50 describe attempts;
it returns `true` iff some attempt within the budget observes
`SUCCESSFUL` before any attempt observes `FAILED`, and `false` when
`FAILED` is observed first or the budget is exhausted without a terminal
state. -/
theorem c9_poll_budget (obs : Nat → OpState) :
    pollDescribeCount obs 50 0 ≤ 50 ∧
      (poll_latest_operation obs = true ↔
        ∃ j, j < 50 ∧ obs j = OpState.successful ∧
          ∀ k, k < j → obs k ≠ OpState.failed) := by
  refine ⟨pollDescribeCount_le obs 50 0, ?_⟩
  simpa using pollAux_iff obs 50 0

/-- Witness: on the all-`pending` stream the describe count stays within
budget and the poll reports failure. -/
theorem c9_poll_budget_witness :
    pollDescribeCount (fun _ => OpState.pending) 50 0 ≤ 50 :=
  (c9_poll_budget fun _ => OpState.pending).1

/-!
C1 — `start` is an idempotent no-op on a running instance, and two
consecutive `start()` calls on a stopped server agree on the address and
issue one remote start call in total.
-/

/-- C1: on a running instance `start()` returns the current connect
address at once with no remote start call; on a stopped server whose
remote start succeeds, two consecutive `start()` calls return the same
connect address and together issue exactly one remote start call. -/
theorem c1_start_idempotent (c : Ctrl) :
    (CloudServiceController.is_running c = true →
      CloudServiceController.start c =
        Except.ok (some (CloudServiceController.get_play_address c), c, 0)) ∧
    (CloudServiceController.is_running c = false →
      c.provider.startPollResult = true →
      ∃ a c₁,
        CloudServiceController.start c = Except.ok (some a, c₁, 1) ∧
        CloudServiceController.start c₁ = Except.ok (some a, c₁, 0)) := by
  constructor
  · intro h
    exact start_of_running c h
  · intro h hs
    simp only [CloudServiceController.is_running,
      TencentCloudServiceProvider.is_running] at h
    simp only [CloudServiceController.start, CloudServiceController.is_running,
      TencentCloudServiceProvider.is_running, TencentCloudServiceProvider.start,
      h, hs, Bool.false_eq_true, if_false, not_true, Bool.not_true, ite_false,
      Bool.true_eq_false]
    refine ⟨_, _, rfl, ?_⟩
    exact start_of_running _ rfl

/-- Witness for C1 at the concrete fixtures: the running fixture is a
no-op, and two consecutive starts from the stopped fixture agree. -/
theorem c1_start_idempotent_witness :
    (CloudServiceController.start cRunning =
      Except.ok
        (some (CloudServiceController.get_play_address cRunning), cRunning, 0)) ∧
    (∃ a c₁,
      CloudServiceController.start cStopped = Except.ok (some a, c₁, 1) ∧
      CloudServiceController.start c₁ = Except.ok (some a, c₁, 0)) :=
  ⟨(c1_start_idempotent cRunning).1 rfl, (c1_start_idempotent cStopped).2 rfl rfl⟩

/-!
C3 — the provider's `AlreadyInState` error branches are unreachable
through the controller, which pre-checks `is_running`.
-/

/-- Whether an `Except` computation finished without raising. -/
def exceptOk {ε α : Type} : Except ε α → Bool
  | .ok _ => true
  | .error _ => false

/-- C3: `CloudServiceController.start` and `CloudServiceController.stop`
never reach the provider's `RuntimeError` branches for an instance
already in the target state, in any controller state. -/
theorem c3_already_in_state_unreachable (c : Ctrl) :
    exceptOk (CloudServiceController.start c) = true ∧
    exceptOk (CloudServiceController.stop c) = true := by
  constructor
  · cases h : c.provider.running with
    | true => rw [start_of_running c h]; rfl
    | false =>
      cases hs : c.provider.startPollResult with
      | true =>
        simp [CloudServiceController.start, CloudServiceController.is_running,
          TencentCloudServiceProvider.is_running, TencentCloudServiceProvider.start,
          h, hs, exceptOk]
      | false =>
        simp [CloudServiceController.start, CloudServiceController.is_running,
          TencentCloudServiceProvider.is_running, TencentCloudServiceProvider.start,
          h, hs, exceptOk]
  · cases h : c.provider.running with
    | false =>
      simp [CloudServiceController.stop, CloudServiceController.is_running,
        TencentCloudServiceProvider.is_running, h, exceptOk]
    | true =>
      simp [CloudServiceController.stop, CloudServiceController.is_running,
        TencentCloudServiceProvider.is_running, TencentCloudServiceProvider.stop,
        h, exceptOk]

/-!
C6 — `stop` on an already-stopped server succeeds immediately.
-/

/-- C6: when the cloud instance reports not running, `stop()` returns
success at once, leaves the state unchanged, and issues no remote stop
call. -/
theorem c6_stop_idempotent (c : Ctrl)
    (h : CloudServiceController.is_running c = false) :
    CloudServiceController.stop c = Except.ok (true, c, 0) := by
  simp [CloudServiceController.stop, CloudServiceController.is_running,
    TencentCloudServiceProvider.is_running] at *
  simp [h]

/-- Witness for C6 at the stopped fixture. -/
theorem c6_stop_idempotent_witness :
    CloudServiceController.stop cStopped = Except.ok (true, cStopped, 0) :=
  c6_stop_idempotent cStopped rfl

/-!
C2 — watchdog uniqueness.  `start()` only sets the previous watchdog
thread's stop event; it never joins it.  In the cooperative-scheduling
model the previous thread stays alive until an iteration of its own loop
observes a set stop event — and that check reads the stop event of the
thread `poll_status_thread` currently references, not its own.
-/

/-- The state reached from a controller constructed over a running
instance after `stop()` succeeds, before watchdog thread 0 has run any
further loop iteration. -/
def c2_c1 : Ctrl :=
  { name := "server1", description := "A server", port := 25565,
    timeout := 180, provider := ⟨false, "1.2.3.4", true, true⟩,
    threads := [⟨0, true, true⟩], pollThreadId := some 0, nextId := 1 }

/-- The state reached from `c2_c1` by a successful `start()`. -/
def c2_c2 : Ctrl :=
  { name := "server1", description := "A server", port := 25565,
    timeout := 180, provider := ⟨true, "1.2.3.4", true, true⟩,
    threads := [⟨0, true, true⟩, ⟨1, false, true⟩], pollThreadId := some 1,
    nextId := 2 }

/-- C2 counterexample: constructing over a running instance spawns
watchdog 0; `stop()` then a quick `start()` (before thread 0 reaches its
next flag check) leaves TWO alive watchdog threads — `start()` set
thread 0's stop event but did not await its termination — and thread 0's
next flag check reads thread 1's (unset) stop event, so its iteration
does not even terminate then. -/
theorem c2_counterexample :
    CloudServiceController.stop cRunning = Except.ok (true, c2_c1, 1) ∧
    CloudServiceController.start c2_c1 =
      Except.ok (some "1.2.3.4:25565", c2_c2, 1) ∧
    c2_c2.threads = [⟨0, true, true⟩, ⟨1, false, true⟩] ∧
    countAlive c2_c2.threads = 2 ∧
    (pool_status_iter c2_c2 0 (fun _ => Except.ok 3) 0).terminated = false :=
  ⟨rfl, rfl, rfl, rfl, rfl⟩

/-- The state a successful `start()` reaches from a controller that has
no watchdog threads yet and a stopped instance. -/
def cAfterStart (c : Ctrl) : Ctrl :=
  { c with provider := { c.provider with running := true },
           threads := [⟨c.nextId, false, true⟩],
           pollThreadId := some c.nextId,
           nextId := c.nextId + 1 }

/-- Lemma: `start()` from a clean stopped state whose remote start succeeds. -/
theorem start_clean (c : Ctrl) (hth : c.threads = [])
    (hr : c.provider.running = false) (hs : c.provider.startPollResult = true) :
    CloudServiceController.start c =
      Except.ok (some (CloudServiceController.get_play_address (cAfterStart c)),
        cAfterStart c, 1) := by
  cases hpt : c.pollThreadId with
  | none =>
    simp [CloudServiceController.start, CloudServiceController.is_running,
      TencentCloudServiceProvider.is_running, TencentCloudServiceProvider.start,
      hr, hs, hth, hpt, cAfterStart]
  | some i =>
    simp [CloudServiceController.start, CloudServiceController.is_running,
      TencentCloudServiceProvider.is_running, TencentCloudServiceProvider.start,
      hr, hs, hth, hpt, cAfterStart, setStopEvent]

/-- C2 amended: `start()` sets the prior watchdog's stop event before
spawning its replacement but does not await its termination, so exactly
one watchdog is *current*; and after `n ≥ 1` consecutive successful
`start()` calls on a server with no existing watchdog thread, exactly
one watchdog thread exists and is alive, because every call after the
first returns early on the running check. -/
theorem c2_amended_unique_watchdog (c : Ctrl) (n : Nat)
    (hth : c.threads = []) (hr : c.provider.running = false)
    (hs : c.provider.startPollResult = true) (hn : 1 ≤ n) :
    (startN n c).threads = [⟨c.nextId, false, true⟩] ∧
    countAlive (startN n c).threads = 1 := by
  obtain ⟨m, rfl⟩ : ∃ m, n = m + 1 := ⟨n - 1, by omega⟩
  have h2 : startN (m + 1) c = startN m (cAfterStart c) := by
    simp only [startN]
    rw [start_clean c hth hr hs]
  rw [h2, startN_of_running m (cAfterStart c) rfl]
  exact ⟨rfl, rfl⟩

/-- Witness for the amended C2: two consecutive starts from the stopped
fixture leave exactly one alive watchdog thread. -/
theorem c2_amended_unique_watchdog_witness :
    (startN 2 cStopped).threads = [⟨cStopped.nextId, false, true⟩] ∧
    countAlive (startN 2 cStopped).threads = 1 :=
  c2_amended_unique_watchdog cStopped 2 rfl rfl rfl (by omega)

/-!
C5 — the connect address.  `get_play_address` is total: it renders the
f-string whether or not the instance runs, so when `get_ip()` yields
`None` the "address" is the string `"None:<port>"` rather than being
undefined.
-/

/-- C5 counterexample: on the stopped fixture `is_running` is false and
`get_ip` is `None`, yet `get_play_address` is still defined and returns
the rendered string `"None:25565"` — not an absent value. -/
theorem c5_counterexample :
    CloudServiceController.is_running cStopped = false ∧
    TencentCloudServiceProvider.get_ip cStopped.provider = none ∧
    CloudServiceController.get_play_address cStopped = "None:25565" :=
  ⟨rfl, rfl, rfl⟩

/-- C5 amended: `get_ip()` is defined iff the instance reports running;
`get_play_address()` is total — when running it is the reported
`ip:port`, and when stopped it is the rendered string `"None:port"`
rather than an undefined value. -/
theorem c5_amended_address (c : Ctrl) :
    ((TencentCloudServiceProvider.get_ip c.provider).isSome = true ↔
       CloudServiceController.is_running c = true) ∧
    (CloudServiceController.is_running c = true →
       CloudServiceController.get_play_address c =
         c.provider.ip ++ ":" ++ toString c.port) ∧
    (CloudServiceController.is_running c = false →
       CloudServiceController.get_play_address c =
         "None:" ++ toString c.port) := by
  refine ⟨?_, ?_, ?_⟩
  · cases h : c.provider.running with
    | true =>
      simp [TencentCloudServiceProvider.get_ip, CloudServiceController.is_running,
        TencentCloudServiceProvider.is_running, h]
    | false =>
      simp [TencentCloudServiceProvider.get_ip, CloudServiceController.is_running,
        TencentCloudServiceProvider.is_running, h]
  · intro h
    simp only [CloudServiceController.is_running,
      TencentCloudServiceProvider.is_running] at h
    simp [CloudServiceController.get_play_address,
      TencentCloudServiceProvider.get_ip, pyStr, h]
  · intro h
    simp only [CloudServiceController.is_running,
      TencentCloudServiceProvider.is_running] at h
    simp [CloudServiceController.get_play_address,
      TencentCloudServiceProvider.get_ip, pyStr, h]

/-- Witness for the amended C5 at the running fixture. -/
theorem c5_amended_address_witness :
    CloudServiceController.get_play_address cRunning =
      cRunning.provider.ip ++ ":" ++ toString cRunning.port :=
  (c5_amended_address cRunning).2.1 rfl

/-!
C4 and C10 — the watchdog loop.
-/

/-- Lemma: `stop()` on a running server with a current watchdog: the watchdog's
stop event is set first, then the remote stop is issued. -/
theorem stop_running (c : Ctrl) (w : Nat)
    (hr : c.provider.running = true) (hpt : c.pollThreadId = some w) :
    CloudServiceController.stop c =
      Except.ok (c.provider.stopPollResult,
        { c with threads := setStopEvent c.threads w,
                 provider :=
                   { c.provider with running := !c.provider.stopPollResult } },
        1) := by
  simp [CloudServiceController.stop, CloudServiceController.is_running,
    TencentCloudServiceProvider.is_running, TencentCloudServiceProvider.stop,
    hr, hpt]

/-- A set stop event survives a `self.stop()` call from the loop body:
`stop()` only ever sets stop events, never clears one. -/
theorem currentStopped_stopState (c : Ctrl) (h : currentStopped c = true) :
    currentStopped (CloudServiceController.stopState c) = true := by
  by_cases hr : c.provider.running = true
  · cases hpt : c.pollThreadId with
    | none => simp [currentStopped, hpt] at h
    | some w =>
      cases hft : findThread c.threads w with
      | none => simp [currentStopped, hpt, hft] at h
      | some t =>
        simp only [CloudServiceController.stopState, stop_running c w hr hpt]
        simp [currentStopped, hpt, findThread_setStopEvent, hft]
  · have hr' : c.provider.running = false := by
      cases hb : c.provider.running
      · rfl
      · exact absurd hb hr
    have : CloudServiceController.stop c = Except.ok (true, c, 0) := by
      simp [CloudServiceController.stop, CloudServiceController.is_running,
        TencentCloudServiceProvider.is_running, hr']
    simp only [CloudServiceController.stopState, this]
    exact h

/-- The state after the `try`/`except` body of one loop iteration is
either the entry state or the entry state after a `self.stop()` call. -/
theorem iterTry_state (c : Ctrl) (probes : Nat → Except String Nat) (i : Nat) :
    (iterTry c probes i).1 = c ∨
    (iterTry c probes i).1 = CloudServiceController.stopState c := by
  unfold iterTry handleExcept
  repeat' split
  all_goals simp

/-- A watchdog whose controller's current stop event is set finishes its
iteration by breaking out of the loop: the body never clears the
event. -/
theorem terminated_of_currentStopped (c : Ctrl) (h : currentStopped c = true)
    (wid : Nat) (probes : Nat → Except String Nat) (i : Nat) :
    (pool_status_iter c wid probes i).terminated = true := by
  rcases iterTry_state c probes i with he | he
  · simp [pool_status_iter, he, h]
  · simp [pool_status_iter, he, currentStopped_stopState c h]

/-- C4: in a loop iteration whose occupancy probe reads 0 and whose
re-probe after the grace sleep still reads 0, the watchdog calls
`stop()` exactly once and its loop terminates at the following flag
check; if the re-probe reads a non-zero count, `stop()` is not called
and the loop continues polling. -/
theorem c4_idle_shutdown (c : Ctrl) (wid w : Nat) (t : WatchdogThread)
    (probes : Nat → Except String Nat) (i n : Nat)
    (hr : c.provider.running = true)
    (hpt : c.pollThreadId = some w)
    (hft : findThread c.threads w = some t)
    (hte : t.stopEvent = false)
    (h0 : probes i = Except.ok n)
    (h1 : probes (i + 1) = Except.ok 0) :
    (probes (i + 2) = Except.ok 0 →
       (pool_status_iter c wid probes i).stopCalls = 1 ∧
       (pool_status_iter c wid probes i).terminated = true) ∧
    (∀ m k, probes (i + 2) = Except.ok (m + 1) →
       probes (i + 3) = Except.ok k →
       (pool_status_iter c wid probes i).stopCalls = 0 ∧
       (pool_status_iter c wid probes i).terminated = false) := by
  constructor
  · intro h2
    have hcs : currentStopped (CloudServiceController.stopState c) = true := by
      simp only [CloudServiceController.stopState, stop_running c w hr hpt]
      simp [currentStopped, hpt, findThread_setStopEvent, hft]
    simp [pool_status_iter, iterTry, h0, h1, h2, hcs]
  · intro m k h2 h3
    have hcs : currentStopped c = false := by
      simp [currentStopped, hpt, hft, hte]
    simp [pool_status_iter, iterTry, h0, h1, h2, h3, hcs]

/-- A probe stream whose readings are 5, then 0, then 0: one occupancy
reading of zero confirmed by the re-probe. -/
def c4_probes : Nat → Except String Nat :=
  fun j => if j = 0 then Except.ok 5 else Except.ok 0

/-- Witness for C4 on the running fixture and the 5,0,0 probe stream:
the iteration stops the server once and terminates. -/
theorem c4_idle_shutdown_witness :
    (pool_status_iter cRunning 0 c4_probes 0).stopCalls = 1 ∧
    (pool_status_iter cRunning 0 c4_probes 0).terminated = true :=
  (c4_idle_shutdown cRunning 0 0 ⟨0, false, true⟩ c4_probes 0 5
    rfl rfl rfl rfl rfl rfl).1 rfl

/-- C10: `stop()` on a running server whose remote stop fails returns
`false` with the server still reported running, but the current
watchdog's stop event has already been set and is never cleared, so any
further watchdog iteration terminates at its flag check; and a
subsequent `start()` returns early on the running check without
spawning a replacement watchdog. -/
theorem c10_failed_stop_kills_watchdog (c : Ctrl) (w : Nat)
    (t : WatchdogThread)
    (hr : c.provider.running = true)
    (hpt : c.pollThreadId = some w)
    (hft : findThread c.threads w = some t)
    (hfail : c.provider.stopPollResult = false) :
    ∃ c', CloudServiceController.stop c = Except.ok (false, c', 1) ∧
      c'.provider.running = true ∧
      currentStopped c' = true ∧
      (∀ wid probes i, (pool_status_iter c' wid probes i).terminated = true) ∧
      CloudServiceController.start c' =
        Except.ok (some (CloudServiceController.get_play_address c'), c', 0) := by
  have hstop := stop_running c w hr hpt
  rw [hfail] at hstop
  refine ⟨_, hstop, rfl, ?_, ?_, ?_⟩
  · simp [currentStopped, hpt, findThread_setStopEvent, hft]
  · intro wid probes i
    apply terminated_of_currentStopped
    simp [currentStopped, hpt, findThread_setStopEvent, hft]
  · exact start_of_running _ rfl

/-- Witness for C10: a running fixture whose remote stop fails. -/
def cRunFail : Ctrl :=
  CloudServiceController.init "server1" "A server" 25565 180
    ⟨true, "1.2.3.4", true, false⟩

/-!
C7 and C8 — the dispatcher.  `handle_command` sends help when the token
count differs from 3 but does not return, so it falls through into the
verb dispatch: `"/ctrl"` (one token) raises `IndexError` on
`command[1]` after the help text is sent; `"/ctrl list"` and
`"/ctrl help"` (two tokens) produce TWO replies; and
`MainController.start` on an already-running server returns its reply
string instead of sending it, producing ZERO replies.
-/

/-- C7: `"/ctrl bogus"` (unknown verb) is answered with exactly the help
text and nothing raises; but `"/ctrl"` (wrong token count) raises
`IndexError` in the handler thread right after the help text is sent,
so "never crashes" fails for token counts below 2. -/
theorem c7_malformed_command :
    QQBot.handle_command [cStopped] "/ctrl bogus" =
      ([help_message], [cStopped], none) ∧
    QQBot.handle_command [cStopped] "/ctrl" =
      ([help_message], [cStopped], some "IndexError") :=
  ⟨rfl, rfl⟩

/-- C8: `"/ctrl list"` (a recognized command of two tokens) is answered
with two reply strings — the help text then the listing — because the
help branch does not return; and `"/ctrl start <name>"` against an
already-running server sends zero replies, because
`MainController.start` returns the reply instead of sending it.  Only
the three-token path against a stopped server sends exactly one
reply. -/
theorem c8_reply_count :
    QQBot.handle_command [cStopped] "/ctrl list" =
      ([help_message, "Available servers:\n-> server1 stopped\nA server\n\n"],
       [cStopped], none) ∧
    QQBot.handle_command [cRunning] "/ctrl start server1" =
      ([], [cRunning], none) ∧
    QQBot.handle_command [cStopped] "/ctrl start server1" =
      (["The server is started at 1.2.3.4:25565"], [cAfterStart cStopped], none) :=
  ⟨rfl, rfl, rfl⟩

/-- Witness for C10 at `cRunFail`. -/
theorem c10_failed_stop_kills_watchdog_witness :
    ∃ c', CloudServiceController.stop cRunFail = Except.ok (false, c', 1) ∧
      c'.provider.running = true ∧
      currentStopped c' = true ∧
      (∀ wid probes i, (pool_status_iter c' wid probes i).terminated = true) ∧
      CloudServiceController.start c' =
        Except.ok (some (CloudServiceController.get_play_address c'), c', 0) :=
  c10_failed_stop_kills_watchdog cRunFail 0 ⟨0, false, true⟩ rfl rfl rfl rfl

end QServerCtrl
